import Mathlib

/-!
Shallow embedding of `tools/gzbd-viewer/gzbd_viewer.c` (the zone state
tracker and refresh/layout engine of the gzbd viewer).

Machine integers: the C code stores zone offsets/lengths in 64-bit
unsigned fields and counts in `unsigned int`.  Offsets and counts are
modelled as `Nat`; where unsigned 32-bit wrap-around can change the
control flow (the window clamp in `gzv_report_zones`) the addition is
taken modulo `2^32` explicitly.  Signed `int` configuration values
(refresh interval, block size as parsed) are modelled as `Int`.
-/

/-- One zone record (`struct blk_zone`): `start`, `len` and `wp` are
byte offsets/lengths (64-bit unsigned in C), `ztype` the zone type
byte, `zcond` the condition byte, `zflags` the remaining flag bytes
(`non_seq`, `reset`, ...), which the viewer never touches. -/
structure BlkZone where
  start : Nat
  len : Nat
  wp : Nat
  ztype : Nat
  zcond : Nat
  zflags : Nat
  deriving Repr, DecidableEq, Inhabited

/-- Kernel zone-type code for a conventional zone
(`BLK_ZONE_TYPE_CONVENTIONAL`). -/
def ZBD_ZONE_TYPE_CNV : Nat := 1

/-- Modelled from the spec: `zbd_zone_conventional` comes from the
library header `zbd.h`, which is not part of the viewer source file;
per the spec a zone's type is either conventional or a sequential
variant, and the predicate tests the type field against the
conventional type code. -/
def zbd_zone_conventional (z : BlkZone) : Bool :=
  z.ztype == ZBD_ZONE_TYPE_CNV

/-- Body of the loop of `gzv_fix_zone_values` (lines 102-108): divide
`start` and `len` by the block size, and `wp` too unless the zone is
conventional.  The conventional test reads only the (unmodified) type
field, so performing it before or after the divisions is equivalent. -/
def gzv_fix_one_zone (block_size : Nat) (z : BlkZone) : BlkZone :=
  { z with
    start := z.start / block_size
    len := z.len / block_size
    wp := if zbd_zone_conventional z then z.wp else z.wp / block_size }

/-- `gzv_fix_zone_values` (lines 95-109): early return when the block
size is 1, otherwise normalize every zone of the array in place. -/
def gzv_fix_zone_values (block_size : Nat) (zones : List BlkZone) : List BlkZone :=
  if block_size = 1 then zones
  else zones.map (gzv_fix_one_zone block_size)

/-- The normalization described by the spec (section 4.1): divide
`start` and `length` by the divisor, and the write pointer only for
non-conventional zones, leaving every other field untouched.  Used to
state the refinement claims about `gzv_fix_zone_values`. -/
def spec_norm_zone (D : Nat) (z : BlkZone) : BlkZone :=
  { z with
    start := z.start / D
    len := z.len / D
    wp := if zbd_zone_conventional z then z.wp else z.wp / D }

/-- Grid geometry computed by `gzv_open` (lines 159-169): columns,
rows, and the number of populated rows.  The C source computes
`sqrt(nr_zones)` with the C library double-precision square root
truncated to `int`; for every zone count below 100 (the only counts
for which that branch is taken) this equals `Nat.sqrt`, the integer
square root `⌊√n⌋`. -/
structure GzvLayout where
  nr_col : Nat
  nr_row : Nat
  max_row : Nat
  deriving Repr, DecidableEq

/-- Layout computation of `gzv_open` (lines 159-169): with both hints
zero (unspecified) and fewer than 100 zones, a near-square layout;
otherwise any unspecified hint defaults to 10; `max_row` is always
recomputed from the final column count. -/
def gzv_layout (nr_zones nr_col_hint nr_row_hint : Nat) : GzvLayout :=
  if nr_col_hint = 0 ∧ nr_row_hint = 0 ∧ nr_zones < 100 then
    let c := Nat.sqrt nr_zones
    { nr_col := c
      nr_row := (nr_zones + c - 1) / c
      max_row := (nr_zones + c - 1) / c }
  else
    let c := if nr_col_hint = 0 then 10 else nr_col_hint
    let r := if nr_row_hint = 0 then 10 else nr_row_hint
    { nr_col := c
      nr_row := r
      max_row := (nr_zones + c - 1) / c }

/-- A grid cell (`struct gzv_zone`): the zone number and the reference
to the zone record, modelled as the index of the referenced zone in
the zone array (`none` for the NULL pointer of an unassigned cell). -/
structure GzvZone where
  zno : Nat
  blkz : Option Nat
  deriving Repr, DecidableEq

/-- The zero state `calloc` gives every grid cell (line 173):
zone number 0 and a NULL zone reference. -/
def gzv_zero_cell : GzvZone := { zno := 0, blkz := none }

/-- Grid construction of `gzv_open` (lines 172-182): allocate
`nr_grid_zones` zero-initialized cells, then the loop
`for (i = 0; i < nr_grid_zones && i < nr_zones; i++)` assigns cell `i`
the zone number `i` and the reference to zone `i`; the loop runs
exactly over `i < min nr_grid_zones nr_zones`. -/
def gzv_fill_grid (nr_grid_zones nr_zones : Nat) : List GzvZone :=
  (List.range (min nr_grid_zones nr_zones)).foldl
    (fun g i => g.set i { zno := i, blkz := some i })
    (List.replicate nr_grid_zones gzv_zero_cell)

/-- The global session state `struct gzv` (the fields the core logic
touches), together with two ghost flags recording whether the zone
array and the grid array are currently heap-allocated (owned), used to
state the resource-release claims. -/
structure Gzv where
  dev_fd : Int
  block_size : Nat
  info_zone_size : Nat
  nr_zones : Nat
  zones : List BlkZone
  nr_conv_zones : Nat
  nr_col : Nat
  nr_row : Nat
  max_row : Nat
  nr_grid_zones : Nat
  grid_zones : List GzvZone
  zonesHeld : Bool
  gridHeld : Bool
  deriving Repr, DecidableEq

/-- A resource released by `gzv_close`: the device handle
(`zbd_close`), the zone array (`free(gzv.zones)`), or the grid array
(`free(gzv.grid_zones)`). -/
inductive GzvRes where
  | devHandle
  | zoneArray
  | gridArray
  deriving Repr, DecidableEq

/-- `gzv_close` (lines 114-125): a no-op when the device descriptor is
already negative; otherwise close the device, mark the descriptor
closed, and free both arrays.  The second component lists the release
actions the call performs, in program order. -/
def gzv_close (s : Gzv) : Gzv × List GzvRes :=
  if s.dev_fd < 0 then (s, [])
  else
    ({ s with dev_fd := -1, zonesHeld := false, gridHeld := false },
     [GzvRes.devHandle, GzvRes.zoneArray, GzvRes.gridArray])

/-- Environment for one `gzv_open` call: the results the device-driver
collaborator returns.  `openRes` is `some zone_size` when `zbd_open`
succeeds (a nonnegative descriptor is acquired and the device geometry
is filled in), `none` when it fails; `listRes` is the outcome of
`zbd_list_zones` (an error code, or the enumerated raw zone records);
`callocOk` tells whether the grid allocation succeeds. -/
structure GzvOpenEnv where
  openRes : Option Nat
  listRes : Except Int (List BlkZone)
  callocOk : Bool

/-- The `out:` epilogue of `gzv_open` (lines 184-188): on a nonzero
return value, release everything through `gzv_close`. -/
def gzv_open_out (s : Gzv) (ret : Int) : Gzv × Int :=
  if ret ≠ 0 then ((gzv_close s).1, ret) else (s, ret)

/-- The zeroed global of `main` (lines 233-235) just before `gzv_open`:
`memset` zero, then `dev_fd = -1` and the configured block size; the
column/row fields hold the parsed hints. -/
def gzv_init (block_size nr_col_hint nr_row_hint : Nat) : Gzv :=
  { dev_fd := -1
    block_size := block_size
    info_zone_size := 0
    nr_zones := 0
    zones := []
    nr_conv_zones := 0
    nr_col := nr_col_hint
    nr_row := nr_row_hint
    max_row := 0
    nr_grid_zones := 0
    grid_zones := []
    zonesHeld := false
    gridHeld := false }

/-- `gzv_open` (lines 130-189).  Control flow of the source: open the
device (fail: return -1); reject a block size that does not divide the
zone size (return 1, with no release); enumerate all zones (failure or
an empty report goes to `out`); normalize the zone array; count
conventional zones; compute the layout; allocate and fill the grid
(allocation failure: `-ENOMEM`, i.e. -12, to `out`).  On success the
device descriptor is the nonnegative value `zbd_open` returned,
modelled as 0 (only its sign is ever inspected). -/
def gzv_open (s0 : Gzv) (env : GzvOpenEnv) : Gzv × Int :=
  match env.openRes with
  | none => ({ s0 with dev_fd := -1 }, -1)
  | some zone_size =>
    let s1 := { s0 with dev_fd := 0, info_zone_size := zone_size }
    if 1 < s1.block_size ∧ zone_size % s1.block_size ≠ 0 then
      (s1, 1)
    else
      match env.listRes with
      | Except.error e => gzv_open_out s1 e
      | Except.ok zs =>
        let s2 := { s1 with zones := zs, nr_zones := zs.length, zonesHeld := true }
        if s2.nr_zones = 0 then gzv_open_out s2 0
        else
          let s3 := { s2 with zones := gzv_fix_zone_values s2.block_size s2.zones }
          let s4 := { s3 with
            nr_conv_zones := s3.zones.countP (fun z => zbd_zone_conventional z) }
          let L := gzv_layout s4.nr_zones s4.nr_col s4.nr_row
          let s5 := { s4 with
            nr_col := L.nr_col
            nr_row := L.nr_row
            max_row := L.max_row
            nr_grid_zones := L.nr_col * L.nr_row }
          if env.callocOk then
            gzv_open_out
              { s5 with
                grid_zones := gzv_fill_grid s5.nr_grid_zones s5.nr_zones
                gridHeld := true } 0
          else
            gzv_open_out s5 (-12)

/-- Modulus of the C `unsigned int` arithmetic used for zone counts. -/
def UINT_MOD : Nat := 2 ^ 32

/-- The window clamp of `gzv_report_zones` (lines 300-302): `nrz`
starts as the requested count and is clamped to `nr_zones - zno_start`
when `zno_start + nrz > nr_zones`; the addition is performed in
`unsigned int` arithmetic and therefore wraps modulo `2^32`. -/
def gzv_clamp_nrz (total zno_start count : Nat) : Nat :=
  if (zno_start + count) % UINT_MOD > total then total - zno_start else count

/-- In-place overwrite of consecutive entries of a list starting at
index `i`, exactly as the device-driver collaborator fills the caller's
buffer entry by entry. -/
def writeAt : List BlkZone → Nat → List BlkZone → List BlkZone
  | l, _, [] => l
  | l, i, a :: rest => writeAt (l.set i a) (i + 1) rest

/-- The byte offset `gzv_report_zones` passes to `zbd_report_zones`
(line 306): `zbd_zone_start(&gzv.zones[zno_start])`, i.e. the `start`
field of the zone record as currently stored — which `gzv_open` has
already normalized by the block size. -/
def gzv_report_ofst (s : Gzv) (zno_start : Nat) : Nat :=
  (s.zones.getD zno_start default).start

/-- The byte length `gzv_report_zones` passes to `zbd_report_zones`
(line 307): `nrz * gzv.info.zone_size`, with the raw (un-normalized)
device zone size. -/
def gzv_report_len (s : Gzv) (nrz : Nat) : Nat :=
  nrz * s.info_zone_size

/-- `gzv_report_zones` (lines 292-318): a no-op success when the start
index is at or past the zone count; otherwise clamp the window and call
the collaborator `zbd_report_zones`, modelled as a function `dev` of
the request it receives — the byte offset (the stored `start` of zone
`zno_start`), the byte length (`nrz * zone_size`), and the buffer
capacity `nrz` — returning an error code or the raw zone records it
writes into the buffer at `&gzv.zones[zno_start]`.  On success the
returned entries (the out-value of `nrz`) are normalized in place; on
a collaborator error the function returns the error code. -/
def gzv_report_zones (s : Gzv) (zno_start count : Nat)
    (dev : Nat → Nat → Nat → Except Int (List BlkZone)) : Gzv × Int :=
  if s.nr_zones ≤ zno_start then (s, 0)
  else
    let nrz := gzv_clamp_nrz s.nr_zones zno_start count
    match dev (gzv_report_ofst s zno_start) (gzv_report_len s nrz) nrz with
    | Except.error e => (s, e)
    | Except.ok rz =>
      ({ s with
         zones := writeAt s.zones zno_start (gzv_fix_zone_values s.block_size rz) }, 0)

/-- The command-line values as they end up in the zero-initialized
global (lines 196-245): an option the user does not pass leaves the
initialization value (0 from `memset`, except the block size which is
set to 1 before parsing). -/
structure GzvArgs where
  refresh_interval : Int
  block_size : Int
  nr_col : Int
  nr_row : Int
  argc : Nat
  deriving Repr, DecidableEq

/-- Option parsing into the global (lines 196-238): each option is
either absent (`none`) or carries the user's value; absent options
keep the defaults (0 for interval and the hints, 1 for block size). -/
def gzv_parse (interval_opt block_opt col_opt row_opt : Option Int)
    (argc : Nat) : GzvArgs :=
  { refresh_interval := interval_opt.getD 0
    block_size := block_opt.getD 1
    nr_col := col_opt.getD 0
    nr_row := row_opt.getD 0
    argc := argc }

/-- Outcome of the startup validation in `main`: exit with code 1, or
proceed into device open with the effective refresh interval. -/
inductive StartupResult where
  | exitOne
  | proceed (effective_interval : Int)
  deriving Repr, DecidableEq

/-- The startup checks of `main` (lines 247-267), run before any
device or display resource is created: a negative interval, a
nonpositive block size, or a missing device path argument each exit
with code 1; otherwise a zero (unspecified) interval defaults to
500 milliseconds. -/
def gzv_main_checks (a : GzvArgs) : StartupResult :=
  if a.refresh_interval < 0 then StartupResult.exitOne
  else if a.block_size ≤ 0 then StartupResult.exitOne
  else if a.argc < 2 then StartupResult.exitOne
  else StartupResult.proceed
    (if a.refresh_interval = 0 then 500 else a.refresh_interval)

/-! ### Helper lemmas -/

/-- For a positive divisor `c`, the rounded-up quotient `(n + c - 1) / c`
multiplied back by `c` covers `n`. -/
theorem ceil_div_covers (n c : Nat) (hc : 0 < c) :
    n ≤ c * ((n + c - 1) / c) := by
  have h1 := Nat.div_add_mod (n + c - 1) c
  have h2 := Nat.mod_lt (n + c - 1) hc
  omega

/-- One normalization pass followed by another divides each offset by
the divisor twice, i.e. by its square. -/
theorem gzv_fix_one_zone_twice (D : Nat) (z : BlkZone) :
    gzv_fix_one_zone D (gzv_fix_one_zone D z) = spec_norm_zone (D * D) z := by
  cases z with
  | mk s l w t c f =>
    simp only [gzv_fix_one_zone, spec_norm_zone, zbd_zone_conventional]
    by_cases h : t == ZBD_ZONE_TYPE_CNV <;>
      simp [h, Nat.div_div_eq_div_mul]

/-- Normalization with divisor 1 is the identity on a zone record. -/
theorem spec_norm_zone_one (z : BlkZone) : spec_norm_zone 1 z = z := by
  cases z with
  | mk s l w t c f =>
    simp only [spec_norm_zone, Nat.div_one]
    by_cases h : zbd_zone_conventional ⟨s, l, w, t, c, f⟩ <;> simp [h]

/-! ### C5 -/

/-- Claim C5: for every divisor `D ≥ 1`, `gzv_fix_zone_values` maps
each zone of the array to the record with `start` and `len` replaced
by their truncating quotients by `D`, with `wp` replaced by its
quotient only when the zone is not conventional (a conventional zone's
write pointer is left exactly as reported), and with the type,
condition and flag fields unchanged. -/
theorem gzv_fix_zone_values_correct (D : Nat) (hD : 1 ≤ D) (zs : List BlkZone) :
    gzv_fix_zone_values D zs =
      zs.map (fun z =>
        { start := z.start / D
          len := z.len / D
          wp := if zbd_zone_conventional z then z.wp else z.wp / D
          ztype := z.ztype
          zcond := z.zcond
          zflags := z.zflags }) := by
  unfold gzv_fix_zone_values
  split
  · next h =>
    subst h
    conv_lhs => rw [← List.map_id zs]
    refine List.map_congr_left fun z _ => ?_
    cases z with
    | mk s l w t c f =>
      by_cases h : zbd_zone_conventional ⟨s, l, w, t, c, f⟩ <;> simp [h]
  · refine List.map_congr_left fun z _ => ?_
    cases z with
    | mk s l w t c f => rfl

/-- Witness for C5: the theorem applied to divisor 2 on a concrete
two-zone array (one conventional, one sequential). -/
theorem gzv_fix_zone_values_correct_witness :
    gzv_fix_zone_values 2
        [⟨8, 6, 5, 1, 0, 0⟩, ⟨9, 6, 5, 2, 0, 0⟩] =
      [⟨4, 3, 5, 1, 0, 0⟩, ⟨4, 3, 2, 2, 0, 0⟩] := by
  rw [gzv_fix_zone_values_correct 2 (by decide)]
  decide

/-! ### C6 -/

/-- Counterexample to claim C6 as stated: with divisor 2, applying
`gzv_fix_zone_values` a second time to the already-normalized array
does not leave it unchanged — the offsets are divided by 2 again
(start 4 becomes 2 after one pass and 1 after two). -/
theorem gzv_fix_zone_values_not_idempotent :
    gzv_fix_zone_values 2 (gzv_fix_zone_values 2 [⟨4, 4, 4, 2, 0, 0⟩]) ≠
      gzv_fix_zone_values 2 [⟨4, 4, 4, 2, 0, 0⟩] := by
  decide

/-- Amended claim C6: a second normalization pass with divisor `D` is
not the identity; it divides the already-normalized values by `D`
again, so two passes equal one normalization by `D * D` (conventional
write pointers stay untouched throughout).  In particular idempotence
holds exactly in the trivial case `D = 1`. -/
theorem gzv_fix_zone_values_twice (D : Nat) (hD : 1 ≤ D) (zs : List BlkZone) :
    gzv_fix_zone_values D (gzv_fix_zone_values D zs) =
      zs.map (spec_norm_zone (D * D)) := by
  unfold gzv_fix_zone_values
  by_cases h : D = 1
  · subst h
    simp only [if_pos rfl]
    conv_lhs => rw [← List.map_id zs]
    exact List.map_congr_left fun z _ => (spec_norm_zone_one z).symm
  · simp only [if_neg h, List.map_map]
    exact List.map_congr_left fun z _ => gzv_fix_one_zone_twice D z

/-- Witness for the amended C6: two passes with divisor 2 on a
concrete array equal one normalization by 4. -/
theorem gzv_fix_zone_values_twice_witness :
    gzv_fix_zone_values 2 (gzv_fix_zone_values 2 [⟨4, 4, 4, 2, 0, 0⟩]) =
      [⟨1, 1, 1, 2, 0, 0⟩] := by
  rw [gzv_fix_zone_values_twice 2 (by decide)]
  decide

/-! ### C4 -/

/-- The integer square root of 37 is 6 (`Nat.sqrt` is defined by
well-founded recursion, so this is settled through its
characterization rather than by kernel evaluation). -/
theorem sqrt_37_eq : Nat.sqrt 37 = 6 := by
  have h1 : 6 ≤ Nat.sqrt 37 := Nat.le_sqrt.mpr (by norm_num)
  have h2 : Nat.sqrt 37 < 7 := Nat.sqrt_lt.mpr (by norm_num)
  omega

/-- The layout for 37 zones with no hints: 6 columns, 7 rows, 7
populated rows. -/
theorem gzv_layout_37 : gzv_layout 37 0 0 = ⟨6, 7, 7⟩ := by
  unfold gzv_layout
  rw [if_pos ⟨rfl, rfl, by norm_num⟩]
  simp only [sqrt_37_eq]

/-- Claim C4: when both hints are unspecified and the zone count is
below 100, the layout is `columns = ⌊√zone_count⌋` and
`rows = ⌈zone_count / columns⌉`; when either hint is nonzero or the
zone count is at least 100, any unspecified hint defaults to 10; in
all cases `max_row = ⌈zone_count / columns⌉`; and the concrete
instance `zone_count = 37` yields columns 6 and rows 7
(the rounded-up quotients are written `(n + c - 1) / c`, the exact
form the source computes, which equals `⌈n / c⌉` for `c > 0`). -/
theorem gzv_layout_defaults (n ch rh : Nat) (hn : 0 < n) :
    ((ch = 0 ∧ rh = 0 ∧ n < 100) →
      (gzv_layout n ch rh).nr_col = Nat.sqrt n ∧
      (gzv_layout n ch rh).nr_row = (n + Nat.sqrt n - 1) / Nat.sqrt n) ∧
    ((ch ≠ 0 ∨ rh ≠ 0 ∨ 100 ≤ n) →
      (gzv_layout n ch rh).nr_col = (if ch = 0 then 10 else ch) ∧
      (gzv_layout n ch rh).nr_row = (if rh = 0 then 10 else rh)) ∧
    (gzv_layout n ch rh).max_row =
      (n + (gzv_layout n ch rh).nr_col - 1) / (gzv_layout n ch rh).nr_col ∧
    gzv_layout 37 0 0 = ⟨6, 7, 7⟩ := by
  unfold gzv_layout
  by_cases h : ch = 0 ∧ rh = 0 ∧ n < 100
  · rw [if_pos h]
    refine ⟨fun _ => ⟨rfl, rfl⟩, fun hc => ?_, rfl,
      by rw [← gzv_layout_37]; unfold gzv_layout; rfl⟩
    rcases h with ⟨h1, h2, h3⟩
    rcases hc with hc | hc | hc
    · exact absurd h1 hc
    · exact absurd h2 hc
    · omega
  · rw [if_neg h]
    exact ⟨fun hc => absurd hc h, fun _ => ⟨rfl, rfl⟩, rfl,
      by rw [← gzv_layout_37]; unfold gzv_layout; rfl⟩

/-- Witness for C4: the theorem applied at zone count 37 with no
hints. -/
theorem gzv_layout_defaults_witness :
    (gzv_layout 37 0 0).nr_col = Nat.sqrt 37 ∧ gzv_layout 37 0 0 = ⟨6, 7, 7⟩ := by
  have h := gzv_layout_defaults 37 0 0 (by norm_num)
  exact ⟨(h.1 ⟨rfl, rfl, by norm_num⟩).1, h.2.2.2⟩

/-! ### C3 -/

/-- Counterexample to claim C3 as stated: the coverage invariant
`columns × rows ≥ zone_count` does not hold for every zone count and
hint combination — at 150 zones with both hints unspecified the else
branch gives the 10 × 10 default grid with only 100 cells. -/
theorem gzv_layout_coverage_fails :
    ¬ (150 ≤ (gzv_layout 150 0 0).nr_col * (gzv_layout 150 0 0).nr_row) := by
  unfold gzv_layout
  rw [if_neg (by omega)]
  norm_num

/-- Amended claim C3: after the layout computation, `0 < columns` and
`0 < rows` hold for every positive zone count and every hint
combination, and the coverage `columns × rows ≥ zone_count` holds in
the near-square case, i.e. when both hints are unspecified and the
zone count is below 100 (it can fail otherwise, e.g. with the 10 × 10
defaults and 150 zones, or with explicit hints smaller than the zone
count). -/
theorem gzv_layout_invariant (n ch rh : Nat) (hn : 0 < n) :
    0 < (gzv_layout n ch rh).nr_col ∧
    0 < (gzv_layout n ch rh).nr_row ∧
    (ch = 0 → rh = 0 → n < 100 →
      n ≤ (gzv_layout n ch rh).nr_col * (gzv_layout n ch rh).nr_row) := by
  unfold gzv_layout
  by_cases h : ch = 0 ∧ rh = 0 ∧ n < 100
  · rw [if_pos h]
    have hs : 0 < Nat.sqrt n := Nat.sqrt_pos.mpr hn
    have hcover := ceil_div_covers n (Nat.sqrt n) hs
    have hrow : 1 ≤ (n + Nat.sqrt n - 1) / Nat.sqrt n :=
      (Nat.le_div_iff_mul_le hs).mpr (by omega)
    exact ⟨hs, hrow, fun _ _ _ => by simpa [Nat.mul_comm] using hcover⟩
  · rw [if_neg h]
    refine ⟨?_, ?_, fun h1 h2 h3 => absurd ⟨h1, h2, h3⟩ h⟩
    · show 0 < (if ch = 0 then 10 else ch)
      split <;> omega
    · show 0 < (if rh = 0 then 10 else rh)
      split <;> omega

/-- Witness for the amended C3: the invariant instantiated at 37
zones with no hints. -/
theorem gzv_layout_invariant_witness :
    0 < (gzv_layout 37 0 0).nr_col ∧ 0 < (gzv_layout 37 0 0).nr_row ∧
    (0 = 0 → 0 = 0 → 37 < 100 →
      37 ≤ (gzv_layout 37 0 0).nr_col * (gzv_layout 37 0 0).nr_row) :=
  gzv_layout_invariant 37 0 0 (by norm_num)

/-! ### C10 -/

/-- The grid-assignment loop never changes the length of the cell
array: each iteration writes through `List.set`, which preserves the
length. -/
theorem gzv_fill_loop_length (m : Nat) (g : List GzvZone) :
    ((List.range m).foldl
      (fun g i => g.set i { zno := i, blkz := some i }) g).length = g.length := by
  induction m with
  | zero => rfl
  | succ k ih =>
    rw [List.range_succ, List.foldl_append]
    simp [ih]

/-- Characterization of the grid-assignment loop: running the
assignments for indices `0, ..., m-1` over a cell array of length at
least `m` sets exactly cells `j < m` and leaves every other cell as it
was. -/
theorem gzv_fill_loop_get (m : Nat) (g : List GzvZone) (hm : m ≤ g.length) (j : Nat) :
    ((List.range m).foldl
      (fun g i => g.set i { zno := i, blkz := some i }) g)[j]? =
      if j < m then some { zno := j, blkz := some j } else g[j]? := by
  induction m with
  | zero => simp
  | succ k ih =>
    rw [List.range_succ, List.foldl_append]
    have hk : k ≤ g.length := Nat.le_of_succ_le hm
    have hlen : ((List.range k).foldl
        (fun g i => g.set i { zno := i, blkz := some i }) g).length = g.length :=
      gzv_fill_loop_length k g
    by_cases hj : j = k
    · subst hj
      rw [List.foldl_cons, List.foldl_nil,
        List.getElem?_set_self (by omega), if_pos (Nat.lt_succ_self j)]
    · rw [List.foldl_cons, List.foldl_nil, List.getElem?_set_ne (fun he => hj he.symm),
        ih hk]
      by_cases hjk : j < k
      · rw [if_pos hjk, if_pos (Nat.lt_succ_of_lt hjk)]
      · rw [if_neg hjk, if_neg (by omega)]

/-- Claim C10: grid-cell assignment writes cell `i` (zone number `i`
and the reference to zone `i`) exactly for `i < min (columns × rows)
zone_count`; the resulting grid still has exactly `columns × rows`
cells (no write past the end of the allocation even when the grid is
smaller than the zone count), and when the grid is larger than the
zone count every cell at index `≥ zone_count` keeps its
zero-initialized state (zone number 0, NULL reference). -/
theorem gzv_fill_grid_correct (G N : Nat) :
    (gzv_fill_grid G N).length = G ∧
    (∀ i, i < min G N →
      (gzv_fill_grid G N)[i]? = some { zno := i, blkz := some i }) ∧
    (∀ i, N ≤ i → i < G → (gzv_fill_grid G N)[i]? = some gzv_zero_cell) := by
  unfold gzv_fill_grid
  have hmin : min G N ≤ (List.replicate G gzv_zero_cell).length := by
    simp [Nat.min_le_left]
  refine ⟨?_, fun i hi => ?_, fun i hNi hiG => ?_⟩
  · rw [gzv_fill_loop_length]
    simp
  · rw [gzv_fill_loop_get (min G N) _ hmin i, if_pos hi]
  · rw [gzv_fill_loop_get (min G N) _ hmin i, if_neg (by omega)]
    simp [List.getElem?_replicate, hiG]

/-- Witness for C10: a 6-cell grid over 4 zones — cells 0-3 are
assigned, cells 4 and 5 stay in the zero state. -/
theorem gzv_fill_grid_correct_witness :
    (gzv_fill_grid 6 4).length = 6 ∧
    (gzv_fill_grid 6 4)[2]? = some { zno := 2, blkz := some 2 } ∧
    (gzv_fill_grid 6 4)[5]? = some gzv_zero_cell := by
  have h := gzv_fill_grid_correct 6 4
  exact ⟨h.1, h.2.1 2 (by norm_num), h.2.2 5 (by norm_num) (by norm_num)⟩

/-! ### C7 -/

/-- Claim C7: `gzv_close` is idempotent — when the device is already
closed (`dev_fd < 0`) the call changes nothing and releases nothing;
the call after a close releases nothing; across two successive calls
each resource (device handle, zone array, grid array) is released at
most once, and exactly once when the device was open. -/
theorem gzv_close_idempotent (s : Gzv) :
    (s.dev_fd < 0 → gzv_close s = (s, [])) ∧
    gzv_close (gzv_close s).1 = ((gzv_close s).1, []) ∧
    (∀ r : GzvRes,
      ((gzv_close s).2 ++ (gzv_close (gzv_close s).1).2).count r ≤ 1) ∧
    (0 ≤ s.dev_fd → ∀ r : GzvRes,
      ((gzv_close s).2 ++ (gzv_close (gzv_close s).1).2).count r = 1) := by
  by_cases h : s.dev_fd < 0
  · refine ⟨fun _ => by simp [gzv_close, h], by simp [gzv_close, h],
      fun r => by simp [gzv_close, h], fun h0 => absurd h (not_lt.mpr h0)⟩
  · have h1 : gzv_close s =
        ({ s with dev_fd := -1, zonesHeld := false, gridHeld := false },
         [GzvRes.devHandle, GzvRes.zoneArray, GzvRes.gridArray]) := by
      simp [gzv_close, h]
    have h2 : gzv_close (gzv_close s).1 = ((gzv_close s).1, []) := by
      rw [h1]
      simp [gzv_close]
    refine ⟨fun hc => absurd hc h, h2, fun r => ?_, fun _ r => ?_⟩
    · rw [h2, h1]
      cases r <;> simp [List.count_cons]
    · rw [h2, h1]
      cases r <;> simp [List.count_cons]

/-- Witness for C7: a session with an open descriptor (`dev_fd = 3`)
is fully released by the first close and untouched by the second; a
session that was never opened is left alone. -/
theorem gzv_close_idempotent_witness :
    gzv_close (gzv_close { gzv_init 1 0 0 with dev_fd := 3 }).1 =
      ((gzv_close { gzv_init 1 0 0 with dev_fd := 3 }).1, []) ∧
    (∀ r : GzvRes,
      ((gzv_close { gzv_init 1 0 0 with dev_fd := 3 }).2 ++
        (gzv_close (gzv_close { gzv_init 1 0 0 with dev_fd := 3 }).1).2).count r = 1) ∧
    gzv_close (gzv_init 1 0 0) = (gzv_init 1 0 0, []) := by
  have h := gzv_close_idempotent { gzv_init 1 0 0 with dev_fd := 3 }
  have h' := gzv_close_idempotent (gzv_init 1 0 0)
  exact ⟨h.2.1, h.2.2.2 (by decide), h'.1 (by decide)⟩

/-! ### C9 -/

/-- Counterexample to claim C9 as stated: an interval configured as 0
is a nonpositive configured interval, yet startup does not exit with
code 1 — the value 0 is indistinguishable from "unspecified" and is
replaced by the 500 ms default. -/
theorem gzv_main_checks_zero_interval :
    (gzv_parse (some 0) none none none 2).refresh_interval ≤ 0 ∧
    gzv_main_checks (gzv_parse (some 0) none none none 2) ≠ StartupResult.exitOne ∧
    gzv_main_checks (gzv_parse (some 0) none none none 2) =
      StartupResult.proceed 500 := by
  decide

/-- Amended claim C9: a missing device path argument is a startup
error (exit code 1); a configured interval strictly below 0 or a block
value at most 0 is a startup error; an interval of 0 — the parsed
representation of "unspecified" — is not an error and defaults to
500 milliseconds; an unspecified block option leaves the block size at
its default 1.  These checks run before any device is opened. -/
theorem gzv_main_checks_correct (io bo co ro : Option Int) (argc : Nat) :
    ((gzv_parse io bo co ro argc).refresh_interval < 0 →
      gzv_main_checks (gzv_parse io bo co ro argc) = StartupResult.exitOne) ∧
    ((gzv_parse io bo co ro argc).block_size ≤ 0 →
      gzv_main_checks (gzv_parse io bo co ro argc) = StartupResult.exitOne) ∧
    (argc < 2 →
      gzv_main_checks (gzv_parse io bo co ro argc) = StartupResult.exitOne) ∧
    (bo = none → (gzv_parse io bo co ro argc).block_size = 1) ∧
    (io = none → 0 < (gzv_parse io bo co ro argc).block_size → 2 ≤ argc →
      gzv_main_checks (gzv_parse io bo co ro argc) = StartupResult.proceed 500) ∧
    (0 ≤ (gzv_parse io bo co ro argc).refresh_interval →
      0 < (gzv_parse io bo co ro argc).block_size → 2 ≤ argc →
      gzv_main_checks (gzv_parse io bo co ro argc) =
        StartupResult.proceed
          (if (gzv_parse io bo co ro argc).refresh_interval = 0 then 500
           else (gzv_parse io bo co ro argc).refresh_interval)) := by
  refine ⟨fun h => ?_, fun h => ?_, fun h => ?_, fun h => ?_,
    fun h hb ha => ?_, fun h0 hb ha => ?_⟩
  · unfold gzv_main_checks
    rw [if_pos h]
  · unfold gzv_main_checks
    by_cases h1 : (gzv_parse io bo co ro argc).refresh_interval < 0
    · rw [if_pos h1]
    · rw [if_neg h1, if_pos h]
  · unfold gzv_main_checks
    by_cases h1 : (gzv_parse io bo co ro argc).refresh_interval < 0
    · rw [if_pos h1]
    · rw [if_neg h1]
      by_cases h2 : (gzv_parse io bo co ro argc).block_size ≤ 0
      · rw [if_pos h2]
      · rw [if_neg h2,
          if_pos (show (gzv_parse io bo co ro argc).argc < 2 from h)]
  · subst h
    rfl
  · subst h
    unfold gzv_main_checks
    rw [if_neg (by simp [gzv_parse]), if_neg (not_le.mpr hb),
      if_neg (show ¬(gzv_parse none bo co ro argc).argc < 2 from Nat.not_lt.mpr ha)]
    simp [gzv_parse]
  · unfold gzv_main_checks
    rw [if_neg (not_lt.mpr h0), if_neg (not_le.mpr hb),
      if_neg (show ¬(gzv_parse io bo co ro argc).argc < 2 from Nat.not_lt.mpr ha)]

/-- Witness for the amended C9: no options and two arguments proceed
with the 500 ms default interval and block size 1; a configured block
of 0 exits with code 1. -/
theorem gzv_main_checks_correct_witness :
    gzv_main_checks (gzv_parse none none none none 2) = StartupResult.proceed 500 ∧
    (gzv_parse none none none none 2).block_size = 1 ∧
    gzv_main_checks (gzv_parse none (some 0) none none 2) = StartupResult.exitOne ∧
    gzv_main_checks (gzv_parse none none none none 1) = StartupResult.exitOne := by
  have h1 := gzv_main_checks_correct none none none none 2
  have h2 := gzv_main_checks_correct none (some 0) none none 2
  have h3 := gzv_main_checks_correct none none none none 1
  exact ⟨h1.2.2.2.2.1 rfl (by decide) (by decide), h1.2.2.2.1 rfl,
    h2.2.1 (by decide), h3.2.2.1 (by decide)⟩

/-! ### C8 -/

/-- The `out:` epilogue reached with the device open and a nonzero
return value releases everything through `gzv_close`: no array is left
owned, the descriptor is closed, and in particular any conclusion
follows from the (then impossible) assumption that the descriptor is
still nonnegative. -/
theorem gzv_open_out_branch (X : Gzv) (e : Int) (P : Prop) (hfd : 0 ≤ X.dev_fd) :
    (gzv_open_out X e).2 ≠ 0 →
      (gzv_open_out X e).1.zonesHeld = false ∧
      (gzv_open_out X e).1.gridHeld = false ∧
      (0 ≤ (gzv_open_out X e).1.dev_fd → P) := by
  unfold gzv_open_out gzv_close
  by_cases he : e ≠ 0
  · rw [if_pos he, if_neg (not_lt.mpr hfd)]
    exact fun _ =>
      ⟨rfl, rfl, fun h0 => absurd (show (0 : Int) ≤ -1 from h0) (by norm_num)⟩
  · rw [if_neg he]
    push_neg at he
    exact fun hret => absurd he hret

/-- Counterexample to claim C8 as stated: with block size 2 on a
device whose zone size is 3 (not a multiple of 2), `gzv_open` returns
the nonzero value 1 from the invalid-block-size check while the device
descriptor is still open (nonnegative) — this error path returns
before the `out:` label and never invokes `gzv_close`. -/
theorem gzv_open_block_size_leak :
    (gzv_open (gzv_init 2 0 0) ⟨some 3, Except.ok [], true⟩).2 = 1 ∧
    0 ≤ (gzv_open (gzv_init 2 0 0) ⟨some 3, Except.ok [], true⟩).1.dev_fd := by
  decide

/-- Amended claim C8: after `gzv_open` returns a nonzero result, the
zone array and the grid array are never left owned, and the device
handle is released too — except on the invalid-block-size
configuration path (block size above 1 not dividing the device zone
size), which returns 1 with the device handle still open, bypassing
the idempotent close routine. -/
theorem gzv_open_error_release (bs ch rh : Nat) (env : GzvOpenEnv) :
    (gzv_open (gzv_init bs ch rh) env).2 ≠ 0 →
      (gzv_open (gzv_init bs ch rh) env).1.zonesHeld = false ∧
      (gzv_open (gzv_init bs ch rh) env).1.gridHeld = false ∧
      (0 ≤ (gzv_open (gzv_init bs ch rh) env).1.dev_fd →
        (gzv_open (gzv_init bs ch rh) env).2 = 1 ∧ 1 < bs ∧
        ∃ zsz, env.openRes = some zsz ∧ zsz % bs ≠ 0) := by
  obtain ⟨orr, lr, ok⟩ := env
  cases orr with
  | none =>
    intro hret
    exact ⟨rfl, rfl, fun h0 => absurd (show (0 : Int) ≤ -1 from h0) (by norm_num)⟩
  | some zsz =>
    cases lr with
    | error e =>
      dsimp only [gzv_open, gzv_init]
      by_cases hbs : 1 < bs ∧ zsz % bs ≠ 0
      · rw [if_pos hbs]
        exact fun _ => ⟨rfl, rfl, fun _ => ⟨rfl, hbs.1, zsz, rfl, hbs.2⟩⟩
      · rw [if_neg hbs]
        exact gzv_open_out_branch _ e _ (le_refl 0)
    | ok zs =>
      dsimp only [gzv_open, gzv_init]
      by_cases hbs : 1 < bs ∧ zsz % bs ≠ 0
      · rw [if_pos hbs]
        exact fun _ => ⟨rfl, rfl, fun _ => ⟨rfl, hbs.1, zsz, rfl, hbs.2⟩⟩
      · rw [if_neg hbs]
        by_cases hlen : zs.length = 0
        · rw [if_pos hlen]
          exact fun hret => absurd rfl hret
        · rw [if_neg hlen]
          cases ok with
          | true =>
            rw [if_pos rfl]
            exact fun hret => absurd rfl hret
          | false =>
            rw [if_neg (by simp)]
            exact gzv_open_out_branch _ (-12) _ (le_refl 0)

/-- Witness for the amended C8: an enumeration failure (error code -5)
releases everything: return value -5, no owned arrays. -/
theorem gzv_open_error_release_witness :
    (gzv_open (gzv_init 1 0 0) ⟨some 4096, Except.error (-5), true⟩).2 = -5 ∧
    (gzv_open (gzv_init 1 0 0) ⟨some 4096, Except.error (-5), true⟩).1.zonesHeld = false ∧
    (gzv_open (gzv_init 1 0 0) ⟨some 4096, Except.error (-5), true⟩).1.gridHeld = false := by
  have h := gzv_open_error_release 1 0 0 ⟨some 4096, Except.error (-5), true⟩
    (by decide)
  exact ⟨by decide, h.1, h.2.1⟩

/-! ### C1 -/

/-- Overwriting a consecutive run of entries preserves the length of
the zone array. -/
theorem writeAt_length (repl : List BlkZone) :
    ∀ (l : List BlkZone) (i : Nat), (writeAt l i repl).length = l.length := by
  induction repl with
  | nil => intro l i; rfl
  | cons a rest ih =>
    intro l i
    rw [writeAt, ih]
    simp

/-- Overwriting the run `[i, i + repl.length)` leaves every entry
outside that index window unchanged. -/
theorem writeAt_getD_outside (repl : List BlkZone) :
    ∀ (l : List BlkZone) (i j : Nat) (d : BlkZone),
      (j < i ∨ i + repl.length ≤ j) →
      (writeAt l i repl).getD j d = l.getD j d := by
  induction repl with
  | nil => intro l i j d _; rfl
  | cons a rest ih =>
    intro l i j d h
    simp only [List.length_cons] at h
    rw [writeAt, ih _ _ _ _ (by omega)]
    have hij : i ≠ j := by omega
    simp [List.getD_eq_getElem?_getD, List.getElem?_set_ne hij]

/-- Normalization does not change the number of entries of a zone
array. -/
theorem gzv_fix_zone_values_length (bs : Nat) (l : List BlkZone) :
    (gzv_fix_zone_values bs l).length = l.length := by
  unfold gzv_fix_zone_values
  split <;> simp

/-- Counterexample to claim C1 as stated: the clamp
`nrz = min(count, N - start_index)` fails when `start_index + count`
wraps around in the `unsigned int` addition of line 301 — on a device
with 10 zones, a request at start index 5 for `2^32 - 3` zones leaves
`nrz` at `2^32 - 3` because the wrapped sum 2 is not above 10, instead
of clamping it to `min(2^32 - 3, 10 - 5) = 5`. -/
theorem gzv_clamp_nrz_overflow :
    gzv_clamp_nrz 10 5 (2 ^ 32 - 3) ≠ min (2 ^ 32 - 3) (10 - 5) := by
  decide

/-- Amended claim C1: a report request starting at or past the zone
count is a no-op success; the stored total zone count is unchanged by
every call; provided `start_index + count` does not wrap in unsigned
arithmetic, the window is clamped to `nrz = min(count, N -
start_index)`; and whenever the collaborator fills at most the
capacity `nrz` it was handed, the re-query leaves the zone-array
length and every entry outside `[start_index, start_index + nrz)`
unchanged. -/
theorem gzv_report_zones_bounds (s : Gzv) (zno_start count : Nat)
    (dev : Nat → Nat → Nat → Except Int (List BlkZone)) :
    (s.nr_zones ≤ zno_start → gzv_report_zones s zno_start count dev = (s, 0)) ∧
    (gzv_report_zones s zno_start count dev).1.nr_zones = s.nr_zones ∧
    (zno_start < s.nr_zones → zno_start + count < UINT_MOD →
      gzv_clamp_nrz s.nr_zones zno_start count =
        min count (s.nr_zones - zno_start)) ∧
    (∀ rz,
      dev (gzv_report_ofst s zno_start)
          (gzv_report_len s (gzv_clamp_nrz s.nr_zones zno_start count))
          (gzv_clamp_nrz s.nr_zones zno_start count) = Except.ok rz →
      rz.length ≤ gzv_clamp_nrz s.nr_zones zno_start count →
      (gzv_report_zones s zno_start count dev).1.zones.length = s.zones.length ∧
      ∀ j d,
        (j < zno_start ∨
          zno_start + gzv_clamp_nrz s.nr_zones zno_start count ≤ j) →
        (gzv_report_zones s zno_start count dev).1.zones.getD j d =
          s.zones.getD j d) := by
  refine ⟨fun h => ?_, ?_, fun hlt hnw => ?_, fun rz hdev hcap => ?_⟩
  · unfold gzv_report_zones
    rw [if_pos h]
  · unfold gzv_report_zones
    by_cases h : s.nr_zones ≤ zno_start
    · rw [if_pos h]
    · rw [if_neg h]
      rcases hd : dev (gzv_report_ofst s zno_start)
          (gzv_report_len s (gzv_clamp_nrz s.nr_zones zno_start count))
          (gzv_clamp_nrz s.nr_zones zno_start count) with e | rz <;> simp [hd]
  · unfold gzv_clamp_nrz
    have hmod : (zno_start + count) % UINT_MOD = zno_start + count :=
      Nat.mod_eq_of_lt hnw
    rw [hmod]
    by_cases h : zno_start + count > s.nr_zones
    · rw [if_pos h]
      omega
    · rw [if_neg h]
      omega
  · unfold gzv_report_zones
    by_cases h : s.nr_zones ≤ zno_start
    · rw [if_pos h]
      exact ⟨rfl, fun j d _ => rfl⟩
    · rw [if_neg h]
      dsimp only
      rw [hdev]
      refine ⟨?_, fun j d hj => ?_⟩
      · show (writeAt s.zones zno_start
            (gzv_fix_zone_values s.block_size rz)).length = s.zones.length
        rw [writeAt_length]
      · show (writeAt s.zones zno_start
            (gzv_fix_zone_values s.block_size rz)).getD j d = s.zones.getD j d
        apply writeAt_getD_outside
        rw [gzv_fix_zone_values_length]
        omega

/-- Witness for the amended C1: on a session with 3 zones, a request
at start index 1 for 2 zones clamps to min(2, 3-1) = 2, and the
re-query leaves zone 0 (outside the window) untouched. -/
theorem gzv_report_zones_bounds_witness :
    gzv_clamp_nrz 3 1 2 = min 2 (3 - 1) ∧
    (gzv_report_zones
        { gzv_init 1 0 0 with
            nr_zones := 3
            zones := [⟨0, 1, 0, 2, 0, 0⟩, ⟨1, 1, 1, 2, 0, 0⟩, ⟨2, 1, 2, 2, 0, 0⟩] }
        1 2 (fun _ _ _ => Except.ok [⟨9, 9, 9, 2, 0, 0⟩])).1.zones.getD 0 default =
      (⟨0, 1, 0, 2, 0, 0⟩ : BlkZone) := by
  have h := gzv_report_zones_bounds
    { gzv_init 1 0 0 with
        nr_zones := 3
        zones := [⟨0, 1, 0, 2, 0, 0⟩, ⟨1, 1, 1, 2, 0, 0⟩, ⟨2, 1, 2, 2, 0, 0⟩] }
    1 2 (fun _ _ _ => Except.ok [⟨9, 9, 9, 2, 0, 0⟩])
  refine ⟨h.2.2.1 (by decide) (by decide), ?_⟩
  have h4 := h.2.2.2 [⟨9, 9, 9, 2, 0, 0⟩] rfl (by decide)
  rw [h4.2 0 default (Or.inl (by decide))]
  rfl

/-! ### C2 -/

/-- Claim C2 evaluated at a failing input: open a device with raw zone
size 4096 under block-size divisor 2 (one sequential zone with raw
start 4096); the open succeeds and stores the normalized start 2048.
A re-query of the window starting at zone 0 then passes `zbd_zone_
start(&zones[0])`, i.e. the already-normalized 2048, as the byte
offset of `zbd_report_zones` — not the raw, un-normalized 4096 the
claim (and the spec) require — while the byte length is computed from
the raw device zone size (1 zone × 4096 = 4096 bytes), mixing the two
units in one request. -/
theorem gzv_report_ofst_normalized_bug :
    (gzv_open (gzv_init 2 5 5)
        ⟨some 4096, Except.ok [⟨4096, 4096, 4096, 2, 0, 0⟩], true⟩).2 = 0 ∧
    gzv_report_ofst
      (gzv_open (gzv_init 2 5 5)
        ⟨some 4096, Except.ok [⟨4096, 4096, 4096, 2, 0, 0⟩], true⟩).1 0 = 2048 ∧
    gzv_report_len
      (gzv_open (gzv_init 2 5 5)
        ⟨some 4096, Except.ok [⟨4096, 4096, 4096, 2, 0, 0⟩], true⟩).1
      (gzv_clamp_nrz 1 0 1) = 4096 ∧
    (2048 : Nat) ≠ 4096 := by
  decide
